import Mathlib

/-!
Verification of the view-state logic of
`src/webui/src/pages/ConfigurationManagement.tsx` (CIMS-backend web UI).

The component is embedded shallowly:

* `Json` models the JavaScript JSON values handled by the page
  (numbers restricted to integers, which is all the page's contracts use);
* `ViewState` mirrors the component's `useState` fields;
* each async handler (`fetchConfigNames`, `fetchConfigContent`,
  `handleSaveConfig`) is split into its synchronous prefix (everything up
  to the `await`, which sets `loading` and issues the HTTP request) and its
  settle continuation (the code run when the promise resolves or rejects,
  including the `catch` and `finally` blocks);
* the two `useEffect` hooks are modelled by `runEffects`, which re-runs an
  effect exactly when its dependency array changed between two renders,
  in declaration order, as React does.

`JSON.parse` is a platform primitive; operations that call it take an
arbitrary parse oracle `parse : String → Option Json` as a parameter
(`none` models a thrown `SyntaxError`).  `JSON.stringify (v, null, 2)` is
embedded concretely by `stringify2`, following the ECMA-262 serialization
algorithm with gap two spaces, restricted to integer numbers.
-/

/-- JSON values as manipulated by the page (JS numbers restricted to the
integers, the only numbers in the page's contracts). -/
inductive Json where
  | null : Json
  | bool (b : Bool) : Json
  | num (n : Int) : Json
  | str (s : String) : Json
  | arr (elems : List Json) : Json
  | obj (fields : List (String × Json)) : Json

/-- Lower-case hexadecimal digit, as produced by `JSON.stringify` in
`\u00xx` escapes. -/
def hexDigit (n : Nat) : Char :=
  if n < 10 then Char.ofNat (48 + n) else Char.ofNat (87 + n)

/-- Escape of a single character inside a JSON string literal, following
`JSON.stringify` (ECMA-262 QuoteJSONString). -/
def escapeJsonChar (c : Char) : String :=
  if c = '"' then "\\\""
  else if c = '\\' then "\\\\"
  else if c = '\x08' then "\\b"
  else if c = '\t' then "\\t"
  else if c = '\n' then "\\n"
  else if c = '\x0c' then "\\f"
  else if c = '\r' then "\\r"
  else if c.toNat < 32 then
    "\\u00" ++ String.singleton (hexDigit (c.toNat / 16))
      ++ String.singleton (hexDigit (c.toNat % 16))
  else String.singleton c

/-- JSON string literal with surrounding quotes, as by `JSON.stringify`. -/
def quoteJson (s : String) : String :=
  "\"" ++ String.join (s.toList.map escapeJsonChar) ++ "\""

mutual

/-- Serialization `JSON.stringify(v, null, 2)` given the current indentation of the
enclosing value (ECMA-262 SerializeJSONProperty with gap `"  "`). -/
def serJson (indent : String) : Json → String
  | .null => "null"
  | .bool b => if b then "true" else "false"
  | .num n => toString n
  | .str s => quoteJson s
  | .arr elems =>
    match elems with
    | [] => "[]"
    | _ => "[\n" ++ (indent ++ "  ") ++ serList (indent ++ "  ") elems
        ++ "\n" ++ indent ++ "]"
  | .obj fields =>
    match fields with
    | [] => "\x7b\x7d"
    | _ => "\x7b\n" ++ (indent ++ "  ") ++ serFields (indent ++ "  ") fields
        ++ "\n" ++ indent ++ "\x7d"

/-- Array elements joined by `",\n" ++ indent`. -/
def serList (indent : String) : List Json → String
  | [] => ""
  | [x] => serJson indent x
  | x :: xs => serJson indent x ++ ",\n" ++ indent ++ serList indent xs

/-- Object members `"key": value` joined by `",\n" ++ indent`, keys in
insertion order as JS enumerates own string keys. -/
def serFields (indent : String) : List (String × Json) → String
  | [] => ""
  | [(k, v)] => quoteJson k ++ ": " ++ serJson indent v
  | (k, v) :: fs => quoteJson k ++ ": " ++ serJson indent v
      ++ ",\n" ++ indent ++ serFields indent fs

end

/-- Top-level `JSON.stringify(v, null, 2)`: serialization with empty initial
indentation (source line 70). -/
def stringify2 (v : Json) : String := serJson "" v

/-- Notification severity, mirroring the `'success' | 'error'` union of the
`snackbarSeverity` state (source line 29). -/
inductive Severity where
  | success : Severity
  | error : Severity
deriving DecidableEq, Repr

/-- One entry of the fixed `resourceTypes` array (source lines 13-19). -/
structure ResourceTypeEntry where
  key : String
  label : String
deriving DecidableEq, Repr

/-- The fixed ordered category list (source lines 13-19). -/
def resourceTypes : List ResourceTypeEntry :=
  [⟨"ClassPlans", "课表"⟩,
   ⟨"TimeLayouts", "时间布局"⟩,
   ⟨"SubjectsSource", "科目"⟩,
   ⟨"DefaultSettingsSource", "默认设置"⟩,
   ⟨"PolicySource", "策略"⟩]

/-- Key lookup `currentResourceType = resourceTypes[tabValue].key` (source line 32).
Out of range the source would throw on `.key` of `undefined`; the component
keeps `tabValue` in `[0, 5)`, and theorems needing the key carry that
bound, so the `getD` default is never relied on. -/
def currentResourceType (tab : Nat) : String :=
  (resourceTypes.getD tab ⟨"", ""⟩).key

/-- An HTTP request issued through `apiClient` (GET carries only a path,
POST carries a JSON body). -/
inductive Request where
  | get (path : String) : Request
  | post (path : String) (body : Json) : Request

/-- The component's `useState` fields (source lines 22-30). -/
structure ViewState where
  tabValue : Nat
  configNames : List String
  selectedConfigName : Option String
  configContent : String
  loading : Bool
  snackbarOpen : Bool
  snackbarMessage : String
  snackbarSeverity : Severity
  isEditing : Bool

/-- Initial state on mount (source lines 22-30). -/
def initialState : ViewState :=
  { tabValue := 0, configNames := [], selectedConfigName := none,
    configContent := "", loading := false, snackbarOpen := false,
    snackbarMessage := "", snackbarSeverity := .success, isEditing := false }

/-- Handler `handleSnackbarOpen` (source lines 105-109). -/
def handleSnackbarOpen (s : ViewState) (message : String) (severity : Severity) :
    ViewState :=
  { s with snackbarMessage := message, snackbarSeverity := severity,
           snackbarOpen := true }

/-- Handler `handleSnackbarClose` (source lines 111-116): `reason = none` models the
JS `undefined` reason of an explicit Alert close. -/
def handleSnackbarClose (s : ViewState) (reason : Option String) : ViewState :=
  if reason = some "clickaway" then s else { s with snackbarOpen := false }

/-- Constant `autoHideDuration` of the Snackbar (source line 194). -/
def autoHideDuration : Nat := 3000

/-- Synchronous prefix of `fetchConfigNames` (source lines 38-41): sets
`loading` and issues the GET before suspending at `await`. -/
def fetchConfigNamesStart (s : ViewState) (resourceType : String) :
    ViewState × Request :=
  ({ s with loading := true }, .get ("/api/v1/panel/" ++ resourceType))

/-- Settle continuation of `fetchConfigNames` (source lines 42-55): the code
after `await`, with the `catch` (any rejection: network error, non-2xx
status, unparsable body) and the `finally`.  `resp` is the resolved
`response.data` or an error. -/
def fetchConfigNamesSettle (s : ViewState) (resp : Except Unit (List String)) :
    ViewState :=
  match resp with
  | .ok names =>
    let s := { s with configNames := names }
    let s :=
      match names with
      | n :: _ => { s with selectedConfigName := some n }
      | [] => { s with selectedConfigName := none }
    { s with loading := false }
  | .error _ =>
    let s := { s with configNames := [], selectedConfigName := none }
    let s := handleSnackbarOpen s "获取配置文件列表失败" .error
    { s with loading := false }

/-- Synchronous prefix of `fetchConfigContent` (source lines 66-69): sets
`loading` and issues the GET, whose path drops the final character of the
category key (`resourceType.slice(0, -1)`) and appends the name as a query
parameter. -/
def fetchConfigContentStart (s : ViewState) (resourceType name : String) :
    ViewState × Request :=
  ({ s with loading := true },
   .get ("/api/v1/client/" ++ resourceType.dropRight 1 ++ "?name=" ++ name))

/-- Settle continuation of `fetchConfigContent` (source lines 70-77):
success pretty-prints the body with `JSON.stringify(data, null, 2)`;
failure clears the content and raises the error snackbar; `finally`
releases `loading`. -/
def fetchConfigContentSettle (s : ViewState) (resp : Except Unit Json) :
    ViewState :=
  match resp with
  | .ok data => { s with configContent := stringify2 data, loading := false }
  | .error _ =>
    let s := { s with configContent := "" }
    let s := handleSnackbarOpen s "获取配置文件内容失败" .error
    { s with loading := false }

/-- A completed run of one async handler: `mid` is the state while the
request (or the synchronous `try` body) is outstanding — `none` when the
handler returned before its body (the `selectedConfigName` guard of save);
`requests` are the HTTP requests issued; `final` is the state once the
handler has fully returned. -/
structure OpRun where
  mid : Option ViewState
  requests : List Request
  final : ViewState

/-- Full run of `fetchConfigNames` (source lines 38-56). -/
def fetchConfigNamesRun (s : ViewState) (resourceType : String)
    (resp : Except Unit (List String)) : OpRun :=
  let (m, r) := fetchConfigNamesStart s resourceType
  ⟨some m, [r], fetchConfigNamesSettle m resp⟩

/-- Full run of `fetchConfigContent` (source lines 66-78). -/
def fetchConfigContentRun (s : ViewState) (resourceType name : String)
    (resp : Except Unit Json) : OpRun :=
  let (m, r) := fetchConfigContentStart s resourceType name
  ⟨some m, [r], fetchConfigContentSettle m resp⟩

/-- Handler `handleSaveConfig` (source lines 90-103).  `parse` is the platform
`JSON.parse` (`none` models a thrown `SyntaxError`); `postOk` tells
whether the POST, when issued, resolves (2xx) or rejects.  The guard
returns before touching any state; `JSON.parse` runs inside the `try`
before the POST, so a parse throw lands in the same `catch` as a network
failure and issues no request; the `finally` releases `loading` on every
path. -/
def handleSaveConfig (parse : String → Option Json) (s : ViewState)
    (content : String) (postOk : Bool) : OpRun :=
  match s.selectedConfigName with
  | none => ⟨none, [], s⟩
  | some name =>
    let m := { s with loading := true }
    match parse content with
    | none =>
      ⟨some m, [],
       { handleSnackbarOpen m "配置文件保存失败" .error with loading := false }⟩
    | some v =>
      let req : Request :=
        .post ("/api/resources/" ++ currentResourceType s.tabValue ++ "/" ++ name)
          (.obj [("content", v)])
      if postOk then
        ⟨some m, [req],
         { handleSnackbarOpen m "配置文件保存成功" .success with
             isEditing := false, loading := false }⟩
      else
        ⟨some m, [req],
         { handleSnackbarOpen m "配置文件保存失败" .error with loading := false }⟩

/-- Body of the second `useEffect` (source lines 58-64): with a selected
name it starts `fetchConfigContent` for the current category (issuing its
GET); with no selection it clears `configContent` and issues nothing. -/
def contentEffect (s : ViewState) : ViewState × List Request :=
  match s.selectedConfigName with
  | some name =>
    let (s', r) := fetchConfigContentStart s (currentResourceType s.tabValue) name
    (s', [r])
  | none => ({ s with configContent := "" }, [])

/-- One React re-render from the state of the previous render `prev` to the
new state `s`: each `useEffect` re-runs, in declaration order, exactly when
its dependency array changed (`Object.is` on each entry; the entries here
are primitives, so value comparison).  The first effect (source lines
34-36, deps `[tabValue, currentResourceType]`) starts `fetchConfigNames`;
the second (source lines 58-64, deps `[selectedConfigName,
currentResourceType]`) is `contentEffect`. -/
def runEffects (prev s : ViewState) : ViewState × List Request :=
  let (s1, r1) :=
    if s.tabValue ≠ prev.tabValue ∨
        currentResourceType s.tabValue ≠ currentResourceType prev.tabValue then
      let (s', r) := fetchConfigNamesStart s (currentResourceType s.tabValue)
      (s', [r])
    else (s, [])
  let (s2, r2) :=
    if s.selectedConfigName ≠ prev.selectedConfigName ∨
        currentResourceType s.tabValue ≠ currentResourceType prev.tabValue then
      contentEffect s1
    else (s1, [])
  (s2, r1 ++ r2)

/-- Handler `handleTabChange` (source lines 80-83) followed by the re-render's
effects: switching to tab `i` sets `tabValue := i`, clears the selection,
then the effects fire on the changed dependencies. -/
def selectCategoryFlow (s : ViewState) (i : Nat) : ViewState × List Request :=
  runEffects s { s with tabValue := i, selectedConfigName := none }

/-- Handler `handleConfigNameClick` (source lines 85-88) followed by the
re-render's effects. -/
def selectNameFlow (s : ViewState) (name : String) : ViewState × List Request :=
  runEffects s { s with selectedConfigName := some name, isEditing := false }

/-- Settling of a `fetchConfigNames` promise followed by the re-render's
effects: React re-renders with the settled state and re-runs any effect
whose dependencies changed — this is the cascade that auto-triggers the
content fetch for an auto-selected first name. -/
def namesSettleFlow (s : ViewState) (resp : Except Unit (List String)) :
    ViewState × List Request :=
  runEffects s (fetchConfigNamesSettle s resp)

/-- Distinct in-range tabs have distinct category keys (the five keys of
`resourceTypes` are pairwise distinct strings). -/
theorem currentResourceType_ne (i j : Nat) (hi : i < 5) (hj : j < 5)
    (h : i ≠ j) : currentResourceType i ≠ currentResourceType j := by
  interval_cases i <;> interval_cases j <;> simp_all <;> decide

/-- C3: for every category and name, `fetchConfigContent` issues exactly one
GET to `/api/v1/client/` followed by the category key minus its final
character and `?name=` followed by the name; on the five fixed keys the
singular form is exactly the trailing-character strip. -/
theorem fetchConfigContent_request_path (s : ViewState)
    (category name : String) (resp : Except Unit Json) :
    (fetchConfigContentRun s category name resp).requests =
      [Request.get ("/api/v1/client/" ++ category.dropRight 1 ++ "?name=" ++ name)]
    ∧ (fetchConfigContentRun s "ClassPlans" name resp).requests =
      [Request.get ("/api/v1/client/ClassPlan?name=" ++ name)]
    ∧ (fetchConfigContentRun s "TimeLayouts" name resp).requests =
      [Request.get ("/api/v1/client/TimeLayout?name=" ++ name)]
    ∧ (fetchConfigContentRun s "SubjectsSource" name resp).requests =
      [Request.get ("/api/v1/client/SubjectsSourc?name=" ++ name)]
    ∧ (fetchConfigContentRun s "DefaultSettingsSource" name resp).requests =
      [Request.get ("/api/v1/client/DefaultSettingsSourc?name=" ++ name)]
    ∧ (fetchConfigContentRun s "PolicySource" name resp).requests =
      [Request.get ("/api/v1/client/PolicySourc?name=" ++ name)] :=
  ⟨rfl, rfl, rfl, rfl, rfl, rfl⟩

/-- C4: a successful content fetch stores the 2-space pretty-print of the
fetched value in `configContent`; in particular the object `("a" : 1)`
yields exactly the 14-character string `\x7b`, newline, two spaces,
`"a": 1`, newline, `\x7d`. -/
theorem fetchConfigContent_pretty_print (s : ViewState) (v : Json) :
    (fetchConfigContentSettle s (.ok v)).configContent = stringify2 v
    ∧ stringify2 (Json.obj [("a", Json.num 1)]) = "\x7b\n  \"a\": 1\n\x7d" :=
  ⟨rfl, rfl⟩

/-- C8: saving with no selected name is a complete no-op: no request, no
`mid` state (so `loading` is never touched) and the final state is the
input state, every field unchanged. -/
theorem save_noop_without_selection (parse : String → Option Json)
    (s : ViewState) (content : String) (postOk : Bool)
    (h : s.selectedConfigName = none) :
    handleSaveConfig parse s content postOk = ⟨none, [], s⟩ := by
  simp [handleSaveConfig, h]

/-- C8 witness: the no-op save at a concrete state. -/
theorem save_noop_without_selection_witness :
    handleSaveConfig (fun _ => none) initialState "x" true = ⟨none, [], initialState⟩ :=
  save_noop_without_selection (fun _ => none) initialState "x" true rfl

/-- C9: a clickaway dismiss request leaves the snackbar state unchanged;
a dismiss request with any other reason closes it; the auto-dismiss
duration is the fixed 3000. -/
theorem snackbar_close_behavior (s : ViewState) (reason : Option String)
    (h : reason ≠ some "clickaway") :
    handleSnackbarClose s (some "clickaway") = s
    ∧ (handleSnackbarClose s reason).snackbarOpen = false
    ∧ autoHideDuration = 3000 := by
  refine ⟨by simp [handleSnackbarClose], ?_, rfl⟩
  simp [handleSnackbarClose, h]

/-- C9 witness: clickaway versus explicit close (reason `undefined`) at a
concrete state. -/
theorem snackbar_close_behavior_witness :
    handleSnackbarClose initialState (some "clickaway") = initialState
    ∧ (handleSnackbarClose initialState none).snackbarOpen = false
    ∧ autoHideDuration = 3000 :=
  snackbar_close_behavior initialState none (by simp)

/-- C7: each of the three handlers holds `loading = true` while its body is
outstanding and releases it on every exit path — names/content success or
rejection, save success, save POST rejection, save parse throw — so the
final state of every run has `loading = false`. -/
theorem loading_bracket (s : ViewState) (category name content : String)
    (respN : Except Unit (List String)) (respC : Except Unit Json)
    (parse : String → Option Json) (postOk : Bool) (nm : String)
    (hn : s.selectedConfigName = some nm) :
    ((fetchConfigNamesRun s category respN).mid = some { s with loading := true }
      ∧ (fetchConfigNamesRun s category respN).final.loading = false)
    ∧ ((fetchConfigContentRun s category name respC).mid = some { s with loading := true }
      ∧ (fetchConfigContentRun s category name respC).final.loading = false)
    ∧ ((handleSaveConfig parse s content postOk).mid = some { s with loading := true }
      ∧ (handleSaveConfig parse s content postOk).final.loading = false) := by
  refine ⟨⟨rfl, ?_⟩, ⟨rfl, ?_⟩, ?_⟩
  · cases respN with
    | ok names => cases names <;> rfl
    | error e => rfl
  · cases respC <;> rfl
  · cases hp : parse content with
    | none => simp [handleSaveConfig, hn, hp]
    | some v => cases postOk <;> simp [handleSaveConfig, hn, hp]

/-- C7 witness: the loading bracket at a concrete state with a selected
name, concrete responses and a concrete parse oracle. -/
theorem loading_bracket_witness :
    ((fetchConfigNamesRun { initialState with selectedConfigName := some "X" }
        "ClassPlans" (.ok ["X"])).mid =
      some { { initialState with selectedConfigName := some "X" } with loading := true }
      ∧ (fetchConfigNamesRun { initialState with selectedConfigName := some "X" }
          "ClassPlans" (.ok ["X"])).final.loading = false)
    ∧ ((fetchConfigContentRun { initialState with selectedConfigName := some "X" }
          "ClassPlans" "X" (.error ())).mid =
        some { { initialState with selectedConfigName := some "X" } with loading := true }
      ∧ (fetchConfigContentRun { initialState with selectedConfigName := some "X" }
          "ClassPlans" "X" (.error ())).final.loading = false)
    ∧ ((handleSaveConfig (fun _ => some .null)
          { initialState with selectedConfigName := some "X" } "null" true).mid =
        some { { initialState with selectedConfigName := some "X" } with loading := true }
      ∧ (handleSaveConfig (fun _ => some .null)
          { initialState with selectedConfigName := some "X" } "null" true).final.loading
        = false) :=
  loading_bracket { initialState with selectedConfigName := some "X" }
    "ClassPlans" "X" "null" (.ok ["X"]) (.error ()) (fun _ => some .null) true "X" rfl

/-- C1: saving syntactically valid content with a selected name issues
exactly one POST to `/api/resources/` followed by the active category key
and the name, with body the single-field object `content` holding the
parsed value; a resolved POST ends edit mode and raises the fixed success
snackbar; a rejected POST raises the fixed error snackbar and leaves
`isEditing` unchanged. -/
theorem save_post_and_outcomes (parse : String → Option Json) (s : ViewState)
    (content name : String) (v : Json)
    (hp : parse content = some v) (hn : s.selectedConfigName = some name) :
    (∀ postOk : Bool, (handleSaveConfig parse s content postOk).requests =
      [Request.post
        ("/api/resources/" ++ currentResourceType s.tabValue ++ "/" ++ name)
        (Json.obj [("content", v)])])
    ∧ ((handleSaveConfig parse s content true).final.isEditing = false
      ∧ (handleSaveConfig parse s content true).final.snackbarOpen = true
      ∧ (handleSaveConfig parse s content true).final.snackbarSeverity = .success
      ∧ (handleSaveConfig parse s content true).final.snackbarMessage = "配置文件保存成功")
    ∧ ((handleSaveConfig parse s content false).final.snackbarOpen = true
      ∧ (handleSaveConfig parse s content false).final.snackbarSeverity = .error
      ∧ (handleSaveConfig parse s content false).final.snackbarMessage = "配置文件保存失败"
      ∧ (handleSaveConfig parse s content false).final.isEditing = s.isEditing) := by
  refine ⟨fun postOk => ?_, ?_, ?_⟩ <;>
    first
      | (cases postOk <;> simp [handleSaveConfig, hn, hp, handleSnackbarOpen])
      | simp [handleSaveConfig, hn, hp, handleSnackbarOpen]

/-- C1 witness: saving the valid content `x` (parsed as the object
`("a" : 1)`) from tab 0 with selected name `X`. -/
theorem save_post_and_outcomes_witness :
    (∀ postOk : Bool, (handleSaveConfig
        (fun c => if c = "x" then some (Json.obj [("a", Json.num 1)]) else none)
        { initialState with selectedConfigName := some "X" } "x" postOk).requests =
      [Request.post
        ("/api/resources/"
          ++ currentResourceType
              ({ initialState with selectedConfigName := some "X" } : ViewState).tabValue
          ++ "/" ++ "X")
        (Json.obj [("content", Json.obj [("a", Json.num 1)])])])
    ∧ ((handleSaveConfig
        (fun c => if c = "x" then some (Json.obj [("a", Json.num 1)]) else none)
        { initialState with selectedConfigName := some "X" } "x" true).final.isEditing = false
      ∧ (handleSaveConfig
        (fun c => if c = "x" then some (Json.obj [("a", Json.num 1)]) else none)
        { initialState with selectedConfigName := some "X" } "x" true).final.snackbarOpen = true
      ∧ (handleSaveConfig
        (fun c => if c = "x" then some (Json.obj [("a", Json.num 1)]) else none)
        { initialState with selectedConfigName := some "X" } "x" true).final.snackbarSeverity = .success
      ∧ (handleSaveConfig
        (fun c => if c = "x" then some (Json.obj [("a", Json.num 1)]) else none)
        { initialState with selectedConfigName := some "X" } "x" true).final.snackbarMessage = "配置文件保存成功")
    ∧ ((handleSaveConfig
        (fun c => if c = "x" then some (Json.obj [("a", Json.num 1)]) else none)
        { initialState with selectedConfigName := some "X" } "x" false).final.snackbarOpen = true
      ∧ (handleSaveConfig
        (fun c => if c = "x" then some (Json.obj [("a", Json.num 1)]) else none)
        { initialState with selectedConfigName := some "X" } "x" false).final.snackbarSeverity = .error
      ∧ (handleSaveConfig
        (fun c => if c = "x" then some (Json.obj [("a", Json.num 1)]) else none)
        { initialState with selectedConfigName := some "X" } "x" false).final.snackbarMessage = "配置文件保存失败"
      ∧ (handleSaveConfig
        (fun c => if c = "x" then some (Json.obj [("a", Json.num 1)]) else none)
        { initialState with selectedConfigName := some "X" } "x" false).final.isEditing
        = ({ initialState with selectedConfigName := some "X" } : ViewState).isEditing) :=
  save_post_and_outcomes
    (fun c => if c = "x" then some (Json.obj [("a", Json.num 1)]) else none)
    { initialState with selectedConfigName := some "X" } "x" "X"
    (Json.obj [("a", Json.num 1)]) (by simp) rfl

/-- C5: when the names fetch rejects, the settled state (after the
re-render's effects) has an empty name list, no selection, the fixed error
snackbar open, and no further request is issued (no retry). -/
theorem names_failure_resets (s : ViewState) :
    (namesSettleFlow s (.error ())).1.configNames = []
    ∧ (namesSettleFlow s (.error ())).1.selectedConfigName = none
    ∧ (namesSettleFlow s (.error ())).1.snackbarOpen = true
    ∧ (namesSettleFlow s (.error ())).1.snackbarSeverity = .error
    ∧ (namesSettleFlow s (.error ())).1.snackbarMessage = "获取配置文件列表失败"
    ∧ (namesSettleFlow s (.error ())).2 = [] := by
  cases hsel : s.selectedConfigName <;>
    simp [namesSettleFlow, runEffects, fetchConfigNamesSettle, handleSnackbarOpen,
      contentEffect, hsel]

/-- C6: a parse failure during save happens before the network call: no
request is issued, the same fixed error snackbar as a network failure is
raised, `isEditing` is unchanged, and the final state coincides exactly
with that of a run whose parse succeeded and whose POST rejected. -/
theorem save_parse_failure_path (parse : String → Option Json) (s : ViewState)
    (content name : String) (postOk : Bool)
    (hn : s.selectedConfigName = some name) (hp : parse content = none) :
    (handleSaveConfig parse s content postOk).requests = []
    ∧ (handleSaveConfig parse s content postOk).final.snackbarOpen = true
    ∧ (handleSaveConfig parse s content postOk).final.snackbarSeverity = .error
    ∧ (handleSaveConfig parse s content postOk).final.snackbarMessage = "配置文件保存失败"
    ∧ (handleSaveConfig parse s content postOk).final.isEditing = s.isEditing
    ∧ (handleSaveConfig parse s content postOk).final =
      (handleSaveConfig (fun _ => some .null) s content false).final := by
  simp [handleSaveConfig, hn, hp, handleSnackbarOpen]

/-- C6 witness: saving unparsable content at a concrete state. -/
theorem save_parse_failure_path_witness :
    (handleSaveConfig (fun _ => none)
      { initialState with selectedConfigName := some "X", isEditing := true }
      "not json" true).requests = []
    ∧ (handleSaveConfig (fun _ => none)
      { initialState with selectedConfigName := some "X", isEditing := true }
      "not json" true).final.snackbarOpen = true
    ∧ (handleSaveConfig (fun _ => none)
      { initialState with selectedConfigName := some "X", isEditing := true }
      "not json" true).final.snackbarSeverity = .error
    ∧ (handleSaveConfig (fun _ => none)
      { initialState with selectedConfigName := some "X", isEditing := true }
      "not json" true).final.snackbarMessage = "配置文件保存失败"
    ∧ (handleSaveConfig (fun _ => none)
      { initialState with selectedConfigName := some "X", isEditing := true }
      "not json" true).final.isEditing =
      ({ initialState with selectedConfigName := some "X", isEditing := true } : ViewState).isEditing
    ∧ (handleSaveConfig (fun _ => none)
      { initialState with selectedConfigName := some "X", isEditing := true }
      "not json" true).final =
      (handleSaveConfig (fun _ => some .null)
        { initialState with selectedConfigName := some "X", isEditing := true }
        "not json" false).final :=
  save_parse_failure_path (fun _ => none)
    { initialState with selectedConfigName := some "X", isEditing := true }
    "not json" "X" true rfl rfl

/-- C10: a failed save (parse throw or POST rejection) is atomic with
respect to the edited state: tab, name list, selection, edited content and
edit mode keep their pre-call values, and `loading` is back to `false`
after the transient bracket. -/
theorem save_failure_frame (parse : String → Option Json) (s : ViewState)
    (content name : String) (postOk : Bool)
    (hn : s.selectedConfigName = some name)
    (hfail : parse content = none ∨ postOk = false) :
    (handleSaveConfig parse s content postOk).final.tabValue = s.tabValue
    ∧ (handleSaveConfig parse s content postOk).final.configNames = s.configNames
    ∧ (handleSaveConfig parse s content postOk).final.selectedConfigName
      = s.selectedConfigName
    ∧ (handleSaveConfig parse s content postOk).final.configContent = s.configContent
    ∧ (handleSaveConfig parse s content postOk).final.isEditing = s.isEditing
    ∧ (handleSaveConfig parse s content postOk).final.loading = false := by
  cases hp : parse content with
  | none => simp [handleSaveConfig, hn, hp, handleSnackbarOpen]
  | some v =>
    rcases hfail with h | h
    · exact absurd hp (h ▸ by simp)
    · simp [handleSaveConfig, hn, hp, h, handleSnackbarOpen]

/-- C10 witness: a POST rejection at a concrete state leaves the edited
state intact. -/
theorem save_failure_frame_witness :
    (handleSaveConfig (fun _ => some .null) { initialState with selectedConfigName := some "X", isEditing := true, configContent := "null" } "null" false).final.tabValue = ({ initialState with selectedConfigName := some "X", isEditing := true, configContent := "null" } : ViewState).tabValue
    ∧ (handleSaveConfig (fun _ => some .null) { initialState with selectedConfigName := some "X", isEditing := true, configContent := "null" } "null" false).final.configNames = ({ initialState with selectedConfigName := some "X", isEditing := true, configContent := "null" } : ViewState).configNames
    ∧ (handleSaveConfig (fun _ => some .null) { initialState with selectedConfigName := some "X", isEditing := true, configContent := "null" } "null" false).final.selectedConfigName = ({ initialState with selectedConfigName := some "X", isEditing := true, configContent := "null" } : ViewState).selectedConfigName
    ∧ (handleSaveConfig (fun _ => some .null) { initialState with selectedConfigName := some "X", isEditing := true, configContent := "null" } "null" false).final.configContent = ({ initialState with selectedConfigName := some "X", isEditing := true, configContent := "null" } : ViewState).configContent
    ∧ (handleSaveConfig (fun _ => some .null) { initialState with selectedConfigName := some "X", isEditing := true, configContent := "null" } "null" false).final.isEditing = ({ initialState with selectedConfigName := some "X", isEditing := true, configContent := "null" } : ViewState).isEditing
    ∧ (handleSaveConfig (fun _ => some .null) { initialState with selectedConfigName := some "X", isEditing := true, configContent := "null" } "null" false).final.loading = false :=
  save_failure_frame (fun _ => some .null) { initialState with selectedConfigName := some "X", isEditing := true, configContent := "null" } "null" "X" false rfl (Or.inr rfl)

/-- C2: switching to a different in-range tab issues exactly the names GET
for the new category and leaves no selection and empty content; when that
fetch then resolves with list `L`, the name list becomes `L` exactly as
returned; a non-empty `L` auto-selects its first entry and the re-render
triggers exactly one content GET for it, while an empty `L` leaves the
selection null, the content cleared, and issues no request. -/
theorem names_success_cascade (s : ViewState) (i : Nat) (L : List String)
    (hi : i < 5) (ht : s.tabValue < 5) (hne : i ≠ s.tabValue) :
    (selectCategoryFlow s i).2 =
      [Request.get ("/api/v1/panel/" ++ currentResourceType i)]
    ∧ (selectCategoryFlow s i).1.selectedConfigName = none
    ∧ (selectCategoryFlow s i).1.configContent = ""
    ∧ (namesSettleFlow (selectCategoryFlow s i).1 (.ok L)).1.configNames = L
    ∧ (∀ n rest, L = n :: rest →
        (namesSettleFlow (selectCategoryFlow s i).1 (.ok L)).1.selectedConfigName
          = some n
        ∧ (namesSettleFlow (selectCategoryFlow s i).1 (.ok L)).2 =
          [Request.get ("/api/v1/client/" ++ (currentResourceType i).dropRight 1
            ++ "?name=" ++ n)])
    ∧ (L = [] →
        (namesSettleFlow (selectCategoryFlow s i).1 (.ok L)).1.selectedConfigName
          = none
        ∧ (namesSettleFlow (selectCategoryFlow s i).1 (.ok L)).1.configContent = ""
        ∧ (namesSettleFlow (selectCategoryFlow s i).1 (.ok L)).2 = []) := by
  have hkey : currentResourceType i ≠ currentResourceType s.tabValue :=
    currentResourceType_ne i s.tabValue hi ht hne
  have h1 : selectCategoryFlow s i =
      ({ s with tabValue := i, selectedConfigName := none, loading := true, configContent := "" },
        [Request.get ("/api/v1/panel/" ++ currentResourceType i)]) := by
    simp [selectCategoryFlow, runEffects, fetchConfigNamesStart, contentEffect,
      hne, hkey]
  rw [h1]
  cases L with
  | nil =>
    refine ⟨rfl, rfl, rfl, ?_, ?_, ?_⟩ <;>
      simp [namesSettleFlow, runEffects, fetchConfigNamesSettle, contentEffect]
  | cons n rest =>
    refine ⟨rfl, rfl, rfl, ?_, ?_, ?_⟩ <;>
      simp [namesSettleFlow, runEffects, fetchConfigNamesSettle, contentEffect,
        fetchConfigContentStart]

/-- C2 witness: switching from tab 0 to tab 1 and settling the names fetch
with the singleton list `X`. -/
theorem names_success_cascade_witness :
    (selectCategoryFlow initialState 1).2 =
      [Request.get ("/api/v1/panel/" ++ currentResourceType 1)]
    ∧ (selectCategoryFlow initialState 1).1.selectedConfigName = none
    ∧ (selectCategoryFlow initialState 1).1.configContent = ""
    ∧ (namesSettleFlow (selectCategoryFlow initialState 1).1 (.ok ["X"])).1.configNames
      = ["X"]
    ∧ (∀ n rest, ["X"] = n :: rest →
        (namesSettleFlow (selectCategoryFlow initialState 1).1
            (.ok ["X"])).1.selectedConfigName = some n
        ∧ (namesSettleFlow (selectCategoryFlow initialState 1).1 (.ok ["X"])).2 =
          [Request.get ("/api/v1/client/" ++ (currentResourceType 1).dropRight 1
            ++ "?name=" ++ n)])
    ∧ ((["X"] : List String) = [] →
        (namesSettleFlow (selectCategoryFlow initialState 1).1
            (.ok ["X"])).1.selectedConfigName = none
        ∧ (namesSettleFlow (selectCategoryFlow initialState 1).1
            (.ok ["X"])).1.configContent = ""
        ∧ (namesSettleFlow (selectCategoryFlow initialState 1).1 (.ok ["X"])).2 = []) :=
  names_success_cascade initialState 1 ["X"] (by decide) (by decide) (by decide)
